import Mathlib

/-!
Shallow embedding of `src/handler.py` (Chatterbox TTS RunPod serverless
handler).  External effects (network fetch, base64 decode of unknown data,
model inference, audio encoding, the ffmpeg transcoder, object-store
upload) are supplied by an `Env` of oracles; the local filesystem is an
explicit set of paths; every attempted external call is recorded in an
event trace so that claims about "a fetch was attempted" or "a temporary
file was created" are directly statable.
-/

deriving instance DecidableEq for Except

/-- Python-level values that can appear in a job's input mapping
(strings, numbers, booleans, `None`).  Numbers are modelled as rationals. -/
inductive PyVal where
  | str (s : String)
  | num (q : ℚ)
  | pbool (b : Bool)
  | pnone
deriving DecidableEq

/-- Models Python `str.strip()` on the underlying string: drop leading
and trailing whitespace (list-recursive so that it reduces on concrete
inputs). -/
def trimStr (s : String) : String :=
  ⟨((s.data.dropWhile Char.isWhitespace).reverse.dropWhile Char.isWhitespace).reverse⟩

/-- ASCII lowercasing of one character (the handler only lowercases
format names, which are ASCII). -/
def lowerChar (c : Char) : Char :=
  if 65 ≤ c.toNat ∧ c.toNat ≤ 90 then Char.ofNat (c.toNat + 32) else c

/-- Models Python `str.lower()` (ASCII). -/
def lowerStr (s : String) : String := ⟨s.data.map lowerChar⟩

/-- String prefix test on character lists. -/
def startsWithChars : List Char → List Char → Bool
  | _, [] => true
  | [], _ :: _ => false
  | c :: cs, p :: ps => c = p && startsWithChars cs ps

/-- Models Python `str.startswith` for a single candidate. -/
def strStartsWith (s p : String) : Bool := startsWithChars s.data p.data

/-- Models Python `v.strip()`: succeeds only on strings (any other value
raises `AttributeError`, an uncaught exception in the handler). -/
def pyStrip : PyVal → Except String String
  | .str s => .ok (trimStr s)
  | _ => .error "AttributeError: no attribute strip"

/-- Models Python `v.lower()`: succeeds only on strings. -/
def pyLower : PyVal → Except String String
  | .str s => .ok (lowerStr s)
  | _ => .error "AttributeError: no attribute lower"

/-- Numeric value of a digit list, most significant first. -/
def natOfDigits (ds : List Char) : ℕ :=
  ds.foldl (fun a c => 10 * a + (c.toNat - 48)) 0

/-- Optional exponent tail of a float literal (`e`/`E`, sign, digits). -/
def parseExpTail (cs : List Char) (m : ℚ) : Option ℚ :=
  match cs with
  | [] => some m
  | c :: r =>
    if c = 'e' then
      let sr : Bool × List Char :=
        match r with
        | '+' :: t => (false, t)
        | '-' :: t => (true, t)
        | t => (false, t)
      let ds := sr.2.takeWhile Char.isDigit
      let rest := sr.2.dropWhile Char.isDigit
      if ds.isEmpty ∨ ¬ rest.isEmpty then none
      else some (if sr.1 then m / 10 ^ natOfDigits ds else m * 10 ^ natOfDigits ds)
    else none

/-- Unsigned decimal body of a float literal: digits, optional point and
fractional digits, optional exponent. -/
def parseFloatBody (cs : List Char) : Option ℚ :=
  let ip := cs.takeWhile Char.isDigit
  let r1 := cs.dropWhile Char.isDigit
  match r1 with
  | '.' :: r2 =>
    let fp := r2.takeWhile Char.isDigit
    let r3 := r2.dropWhile Char.isDigit
    if ip.isEmpty ∧ fp.isEmpty then none
    else parseExpTail r3 ((natOfDigits ip : ℚ) + (natOfDigits fp : ℚ) / (10 : ℚ) ^ fp.length)
  | _ =>
    if ip.isEmpty then none else parseExpTail r1 ((natOfDigits ip : ℚ))

/-- Models the Python builtin `float()` on a string: surrounding
whitespace stripped, optional sign, ordinary decimal literal with optional
exponent, or the non-finite literals `inf`/`infinity`/`nan` (whose
magnitude is not representable in `ℚ` and is abstracted to `0`; the value
only feeds the opaque synthesis call, so only success/failure matters).
Underscore digit separators are not modelled. -/
def parseFloat (s : String) : Option ℚ :=
  let cs := (trimStr s).data.map lowerChar
  let sb : Bool × List Char :=
    match cs with
    | '+' :: t => (false, t)
    | '-' :: t => (true, t)
    | t => (false, t)
  let r :=
    if sb.2 = "inf".toList ∨ sb.2 = "infinity".toList ∨ sb.2 = "nan".toList then some 0
    else parseFloatBody sb.2
  r.map (fun q => if sb.1 then -q else q)

/-- Models the Python builtin `float()` on a job-input value: numbers pass
through, booleans become 0/1, strings are parsed, anything else raises. -/
def pyFloat : PyVal → Except String ℚ
  | .num q => .ok q
  | .pbool b => .ok (if b then 1 else 0)
  | .str s =>
    match parseFloat s with
    | some q => .ok q
    | none => .error "ValueError: could not convert string to float"
  | .pnone => .error "TypeError: float() argument must be a string or a real number"

/-- Models Python truthiness of a job-input value (used by
`if r2_client and not return_base64`). -/
def pyTruthy : PyVal → Bool
  | .str s => !s.data.isEmpty
  | .num q => q != 0
  | .pbool b => b
  | .pnone => false

/-- Values stored in the response dictionary. -/
inductive RVal where
  | s (v : String)
  | q (v : ℚ)
  | n (v : ℕ)
deriving DecidableEq

/-- Response dictionary: insertion-ordered key/value pairs with unique
keys, as Python dict literals and item assignment produce. -/
abbrev Dict := List (String × RVal)

/-- Dictionary lookup (first matching key). -/
def dictFind : Dict → String → Option RVal
  | [], _ => none
  | (k, v) :: d, k' => if k = k' then some v else dictFind d k'

/-- Python dict item assignment `d[k] = v`: update in place, else append. -/
def dictSet : Dict → String → RVal → Dict
  | [], k, v => [(k, v)]
  | (k', v') :: d, k, v =>
    if k' = k then (k, v) :: d else (k', v') :: dictSet d k v

/-- Attempted external calls and temp-file creations, recorded in order. -/
inductive Event where
  | fetch (url : String)
  | decodeB64 (s : String)
  | tempWrite (path : String)
  | generate
  | save (path : String)
  | ffmpeg
  | upload (path : String)
deriving DecidableEq

/-- Events produced only by the input-resolution stage. -/
def isResolveEvent : Event → Bool
  | .fetch _ => true
  | .decodeB64 _ => true
  | .tempWrite _ => true
  | _ => false

/-- The local filesystem, as the set of paths that exist. -/
abbrev FS := List String

/-- Creating / overwriting a file. -/
def fsWrite (fs : FS) (p : String) : FS := if p ∈ fs then fs else p :: fs

/-- `os.remove` (a no-op here on a missing path; every removal in the
handler is either guarded by `os.path.exists` or wrapped in a bare
`try/except: pass`, and the one unguarded removal targets a file just
written). -/
def fsRemove (fs : FS) (p : String) : FS := fs.filter (fun q => q != p)

/-- Oracles for every external dependency of `handler.py`.
`loadModel` is `ChatterboxTTS.from_pretrained` (its payload is the loaded
model's sample rate `MODEL.sr`); `download` is `requests.get` +
`raise_for_status`; `b64decode` is `base64.b64decode` on the given
string; `generate` is `MODEL.generate` (text, optional prompt path,
exaggeration, cfg_weight; its payload is the waveform sample count);
`taSave` is `torchaudio.save` at a path; `ffmpeg` is the transcoder
subprocess; `putObject` is the S3 `put_object` keyed by object name;
`fileB64` is the base64 text of the file at a path; `freshId` is
`uuid.uuid4()`; `cdnUrl` is the `CDN_URL` configuration. -/
structure Env where
  loadModel : Except String ℕ
  download : String → Except String Unit
  b64decode : String → Except String Unit
  generate : String → Option String → ℚ → ℚ → Except String ℕ
  taSave : String → Except String Unit
  ffmpeg : Except String Unit
  r2Configured : Bool
  putObject : String → Except String Unit
  fileB64 : String → String
  freshId : String
  cdnUrl : String

/-- Module-level state set at import time (handler.py 84-92). -/
structure Globals where
  modelLoaded : Bool
  sampleRate : ℕ
deriving DecidableEq

/-- Embeds the module-level model load (handler.py 84-92): on failure the
process still starts, with `MODEL = None` and `SAMPLE_RATE = 24000`. -/
def startup (env : Env) : Globals :=
  match env.loadModel with
  | .ok sr => ⟨true, sr⟩
  | .error _ => ⟨false, 24000⟩

/-- The job's `input` mapping; an absent key is `none`. -/
structure JobInput where
  text : Option PyVal
  audio_prompt : Option PyVal
  exaggeration : Option PyVal
  cfg_weight : Option PyVal
  output_format : Option PyVal
  return_base64 : Option PyVal
deriving DecidableEq

/-- A job as delivered by the serverless runtime. -/
structure Job where
  id : Option String
  input : JobInput
deriving DecidableEq

def INPUT_DIR : String := "/app/input"
def OUTPUT_DIR : String := "/app/output"

/-- Result of a full handler invocation: the returned value (`.error`
means an uncaught Python exception escaped the handler), the final
filesystem, and the trace of attempted external calls. -/
structure HOut where
  res : Except String Dict
  fs : FS
  events : List Event
deriving DecidableEq

/-- Result of the `try`-block body, carrying `temp_audio_file` for the
`finally` cleanup. -/
structure BodyOut where
  res : Except String Dict
  fs : FS
  events : List Event
  temp : Option String
deriving DecidableEq

/-- Embeds `download_audio` (handler.py 125-136): URL syntax check,
network fetch with `raise_for_status`, then write of the body to
`save_path`. -/
def download_audio (env : Env) (url save_path : String) (fs : FS) :
    Except String FS × List Event :=
  if strStartsWith url "http://" || strStartsWith url "https://" then
    match env.download url with
    | .error e => (.error e, [.fetch url])
    | .ok _ => (.ok (fsWrite fs save_path), [.fetch url, .tempWrite save_path])
  else (.error "Invalid URL", [])

/-- Embeds `upload_to_r2` (handler.py 97-120): no client configured means
`None`; otherwise attempt `put_object` and return the public URL on
success, `None` on any failure (the function catches its own errors). -/
def upload_to_r2 (env : Env) (file_path job_id file_ext : String) :
    Option String × List Event :=
  if env.r2Configured then
    let file_name := "tts/" ++ job_id ++ "." ++ file_ext
    match env.putObject file_name with
    | .ok _ => (some (env.cdnUrl ++ "/" ++ file_name), [.upload file_path])
    | .error _ => (none, [.upload file_path])
  else (none, [])

/-- Embeds the save stage (handler.py 248-271): direct `torchaudio.save`
for wav; for mp3, save an intermediate `{job_id}_temp.wav`, transcode via
ffmpeg, and delete the intermediate only after a successful transcode.
Any failure is reported to the caller (which wraps it as a save error). -/
def saveOutput (env : Env) (job_id output_format output_path : String) (fs : FS) :
    Except String Unit × FS × List Event :=
  if output_format = "wav" then
    match env.taSave output_path with
    | .error e => (.error e, fs, [.save output_path])
    | .ok _ => (.ok (), fsWrite fs output_path, [.save output_path])
  else
    let temp_wav := OUTPUT_DIR ++ "/" ++ job_id ++ "_temp.wav"
    match env.taSave temp_wav with
    | .error e => (.error e, fs, [.save temp_wav])
    | .ok _ =>
      match env.ffmpeg with
      | .error e => (.error e, fsWrite fs temp_wav, [.save temp_wav, .ffmpeg])
      | .ok _ =>
        (.ok (), fsRemove (fsWrite (fsWrite fs temp_wav) output_path) temp_wav,
         [.save temp_wav, .ffmpeg])

/-- Embeds the publish stage (handler.py 276-305): with a configured
store and no forced embedding, attempt upload; on success attach
`audio_url` and delete the local file; otherwise fall through to the
base64 embedding, attach `audio`, and delete the local file (deletions
are best-effort). -/
def publish (env : Env) (job_id output_format output_path : String)
    (return_base64 : PyVal) (result : Dict) (fs : FS) :
    Except String Dict × FS × List Event :=
  if env.r2Configured && !(pyTruthy return_base64) then
    match upload_to_r2 env output_path job_id output_format with
    | (some url, evs) =>
      (.ok (dictSet result "audio_url" (.s url)), fsRemove fs output_path, evs)
    | (none, evs) =>
      (.ok (dictSet result "audio" (.s (env.fileB64 output_path))),
       fsRemove fs output_path, evs)
  else
    (.ok (dictSet result "audio" (.s (env.fileB64 output_path))),
     fsRemove fs output_path, [])

/-- Embeds handler.py 220-305: the synthesis call, the save stage, the
result record `{duration, sample_rate, format}` and the publish stage,
threading the resolved prompt path and the temp file through. -/
def afterPrompt (env : Env) (g : Globals) (job_id text : String)
    (exagg cfgw : ℚ) (output_format : String) (return_base64 : PyVal)
    (audio_prompt_path temp : Option String) (fs : FS) (evs : List Event) :
    BodyOut :=
  match env.generate text audio_prompt_path exagg cfgw with
  | .error e =>
    ⟨.ok [("error", .s ("TTS generation failed: " ++ e))], fs, evs ++ [.generate], temp⟩
  | .ok samples =>
    let output_path := OUTPUT_DIR ++ "/" ++ job_id ++ "." ++ output_format
    match saveOutput env job_id output_format output_path fs with
    | (.error e, fs1, evs2) =>
      ⟨.ok [("error", .s ("Failed to save audio: " ++ e))], fs1,
       evs ++ [.generate] ++ evs2, temp⟩
    | (.ok _, fs1, evs2) =>
      let result : Dict :=
        [("duration", .q ((samples : ℚ) / (g.sampleRate : ℚ))),
         ("sample_rate", .n g.sampleRate),
         ("format", .s output_format)]
      match publish env job_id output_format output_path return_base64 result fs1 with
      | (.ok d, fs2, evs3) => ⟨.ok d, fs2, evs ++ [.generate] ++ evs2 ++ evs3, temp⟩
      | (.error e, fs2, evs3) => ⟨.error e, fs2, evs ++ [.generate] ++ evs2 ++ evs3, temp⟩

/-- Embeds the `try`-block body (handler.py 193-305): audio-prompt
resolution by prefix sniffing (URL download vs base64 decode), then the
rest of the pipeline.  The `.strip()` on a non-string prompt is an
uncaught exception (the enclosing `try` has only a `finally`). -/
def handlerMain (env : Env) (g : Globals) (job_id : String) (input : JobInput)
    (text : String) (exagg cfgw : ℚ) (output_format : String)
    (return_base64 : PyVal) (fs : FS) : BodyOut :=
  match input.audio_prompt with
  | none =>
    afterPrompt env g job_id text exagg cfgw output_format return_base64 none none fs []
  | some pv =>
    match pyStrip pv with
    | .error e => ⟨.error e, fs, [], none⟩
    | .ok v =>
      if strStartsWith v "http://" || strStartsWith v "https://" then
        let temp := INPUT_DIR ++ "/" ++ job_id ++ "_prompt.wav"
        match download_audio env v temp fs with
        | (.error e, evs) =>
          ⟨.ok [("error", .s ("Failed to download audio prompt: " ++ e))], fs, evs, some temp⟩
        | (.ok fs1, evs) =>
          afterPrompt env g job_id text exagg cfgw output_format return_base64
            (some temp) (some temp) fs1 evs
      else
        match env.b64decode v with
        | .error e =>
          ⟨.ok [("error", .s ("Invalid base64 audio_prompt: " ++ e))], fs,
           [.decodeB64 v], none⟩
        | .ok _ =>
          let temp := INPUT_DIR ++ "/" ++ job_id ++ "_prompt.wav"
          afterPrompt env g job_id text exagg cfgw output_format return_base64
            (some temp) (some temp) (fsWrite fs temp) [.decodeB64 v, .tempWrite temp]

/-- Embeds the `finally` block (handler.py 307-313): remove the prompt
temp file when it was assigned and exists (the path string is never
empty, so its truthiness test always passes when assigned). -/
def finallyCleanup (b : BodyOut) : HOut :=
  ⟨b.res,
   match b.temp with
   | some p => if p ∈ b.fs then fsRemove b.fs p else b.fs
   | none => b.fs,
   b.events⟩

/-- Embeds `handler` (handler.py 141-313): model-loaded check, text
validation, parameter coercion (all before the `try`, so a coercion
failure is an uncaught exception), format normalization, then the
`try`-body followed by the guaranteed `finally` cleanup. -/
def handler (env : Env) (g : Globals) (job : Job) (fs0 : FS) : HOut :=
  let job_id := job.id.getD env.freshId
  if g.modelLoaded then
    match pyStrip (job.input.text.getD (.str "")) with
    | .error e => ⟨.error e, fs0, []⟩
    | .ok text =>
      if text = "" then
        ⟨.ok [("error", .s "Missing required parameter: text")], fs0, []⟩
      else
        match pyFloat (job.input.exaggeration.getD (.num (1 / 2))) with
        | .error e => ⟨.error e, fs0, []⟩
        | .ok exagg =>
          match pyFloat (job.input.cfg_weight.getD (.num (1 / 2))) with
          | .error e => ⟨.error e, fs0, []⟩
          | .ok cfgw =>
            match pyLower (job.input.output_format.getD (.str "wav")) with
            | .error e => ⟨.error e, fs0, []⟩
            | .ok fmt0 =>
              let return_base64 := job.input.return_base64.getD (.pbool false)
              let output_format := if fmt0 = "wav" || fmt0 = "mp3" then fmt0 else "wav"
              finallyCleanup
                (handlerMain env g job_id job.input text exagg cfgw output_format
                  return_base64 fs0)
  else ⟨.ok [("error", .s "Model failed to load at startup")], fs0, []⟩

/-! ## Basic facts about the filesystem and dictionary models -/

theorem mem_fsWrite {fs : FS} {p q : String} : q ∈ fsWrite fs p ↔ q = p ∨ q ∈ fs := by
  unfold fsWrite
  split <;> simp_all

theorem mem_fsRemove {fs : FS} {p q : String} : q ∈ fsRemove fs p ↔ q ∈ fs ∧ q ≠ p := by
  simp [fsRemove, List.mem_filter, bne_iff_ne]

theorem not_mem_fsRemove {fs : FS} {p : String} : p ∉ fsRemove fs p := by
  simp [mem_fsRemove]

theorem strAppend_assoc (x y z : String) : (x ++ y) ++ z = x ++ (y ++ z) := by
  obtain ⟨xd⟩ := x
  obtain ⟨yd⟩ := y
  obtain ⟨zd⟩ := z
  show String.mk ((xd ++ yd) ++ zd) = String.mk (xd ++ (yd ++ zd))
  rw [List.append_assoc]

@[simp] theorem finallyCleanup_res (b : BodyOut) : (finallyCleanup b).res = b.res := rfl

@[simp] theorem finallyCleanup_events (b : BodyOut) :
    (finallyCleanup b).events = b.events := rfl

theorem finallyCleanup_temp_absent (b : BodyOut) (p : String) (h : b.temp = some p) :
    p ∉ (finallyCleanup b).fs := by
  unfold finallyCleanup
  rw [h]
  simp only
  split
  · exact not_mem_fsRemove
  · assumption

theorem dictFind_dictSet_ne (d : Dict) (k k' : String) (v : RVal) (h : k' ≠ k) :
    dictFind (dictSet d k v) k' = dictFind d k' := by
  have hkk : ¬ (k = k') := fun hh => h hh.symm
  induction d with
  | nil => simp [dictSet, dictFind, hkk]
  | cons a d ih =>
    obtain ⟨ka, va⟩ := a
    by_cases hk : ka = k
    · subst hk
      simp [dictSet, dictFind, hkk]
    · simp only [dictSet, if_neg hk, dictFind, ih]

/-! ## Concrete environments and jobs used for witnesses and counterexamples -/

/-- An environment in which every external call succeeds and no remote
store is configured. -/
def envOk : Env :=
  ⟨.ok 24000, fun _ => .ok (), fun _ => .ok (), fun _ _ _ _ => .ok 12000,
   fun _ => .ok (), .ok (), false, fun _ => .ok (), fun _ => "QUJD",
   "uuid0", "https://cdn.example.com"⟩

/-- Like `envOk` but the network fetch fails. -/
def envDl : Env :=
  ⟨.ok 24000, fun _ => .error "timeout", fun _ => .ok (), fun _ _ _ _ => .ok 12000,
   fun _ => .ok (), .ok (), false, fun _ => .ok (), fun _ => "QUJD",
   "uuid0", "https://cdn.example.com"⟩

/-- Like `envOk` but the ffmpeg transcode fails. -/
def envFf : Env :=
  ⟨.ok 24000, fun _ => .ok (), fun _ => .ok (), fun _ _ _ _ => .ok 12000,
   fun _ => .ok (), .error "ffmpeg exited 1", false, fun _ => .ok (), fun _ => "QUJD",
   "uuid0", "https://cdn.example.com"⟩

/-- Like `envOk` but a remote store is configured and every upload fails. -/
def envUp : Env :=
  ⟨.ok 24000, fun _ => .ok (), fun _ => .ok (), fun _ _ _ _ => .ok 12000,
   fun _ => .ok (), .ok (), true, fun _ => .error "store down", fun _ => "QUJD",
   "uuid0", "https://cdn.example.com"⟩

/-- An environment in which the model fails to load at startup. -/
def envNoModel : Env :=
  ⟨.error "no weights", fun _ => .ok (), fun _ => .ok (), fun _ _ _ _ => .ok 12000,
   fun _ => .ok (), .ok (), false, fun _ => .ok (), fun _ => "QUJD",
   "uuid0", "https://cdn.example.com"⟩

/-- A job input with every field absent. -/
def noInput : JobInput := ⟨none, none, none, none, none, none⟩

/-! ## C7: model-load failure short-circuits every job -/

/-- C7: if model loading failed at process start, the process still
starts (startup is total, leaving `MODEL = None` and the default sample
rate), and every subsequent job, regardless of its input, immediately
returns the "model not loaded" error with no validation, resolution or
synthesis step run (no events, filesystem untouched). -/
theorem c7_model_load_failure (env : Env) (job : Job) (fs0 : FS) (e : String)
    (h : env.loadModel = .error e) :
    startup env = ⟨false, 24000⟩ ∧
    handler env (startup env) job fs0 =
      ⟨.ok [("error", RVal.s "Model failed to load at startup")], fs0, []⟩ := by
  have hs : startup env = ⟨false, 24000⟩ := by unfold startup; rw [h]
  refine ⟨hs, ?_⟩
  unfold handler
  rw [hs]
  simp

theorem c7_model_load_failure_witness :
    envNoModel.loadModel = .error "no weights" ∧
    (startup envNoModel = ⟨false, 24000⟩ ∧
     handler envNoModel (startup envNoModel) ⟨some "j7", noInput⟩ [] =
       ⟨.ok [("error", RVal.s "Model failed to load at startup")], [], []⟩) :=
  ⟨rfl, c7_model_load_failure envNoModel ⟨some "j7", noInput⟩ [] "no weights" rfl⟩

/-! ## C4: blank text fails with no side effects -/

/-- C4: for every job whose text field is absent, empty, or
whitespace-only, the handler returns exactly an `{error: ...}` object and
performs no side effects: the filesystem is unchanged (so no temporary
file is created) and no external call is attempted (no events). -/
theorem c4_blank_text (env : Env) (g : Globals) (job : Job) (fs0 : FS)
    (h : job.input.text = none ∨ ∃ s, job.input.text = some (.str s) ∧ trimStr s = "") :
    ∃ m, handler env g job fs0 = ⟨.ok [("error", RVal.s m)], fs0, []⟩ := by
  unfold handler
  cases hg : g.modelLoaded
  · exact ⟨"Model failed to load at startup", by simp⟩
  · refine ⟨"Missing required parameter: text", ?_⟩
    rcases h with h | ⟨s, hs, hst⟩
    · rw [h]
      have htr : trimStr "" = "" := by decide
      simp [pyStrip, htr]
    · rw [hs]
      simp [pyStrip, hst]

theorem c4_blank_text_witness :
    ((⟨some "j4", ⟨some (.str "  "), none, none, none, none, none⟩⟩ : Job).input.text = none ∨
     ∃ s, (⟨some "j4", ⟨some (.str "  "), none, none, none, none, none⟩⟩ : Job).input.text =
       some (.str s) ∧ trimStr s = "") ∧
    ∃ m, handler envOk ⟨true, 24000⟩
      ⟨some "j4", ⟨some (.str "  "), none, none, none, none, none⟩⟩ ["/pre/existing"] =
      ⟨.ok [("error", RVal.s m)], ["/pre/existing"], []⟩ :=
  ⟨Or.inr ⟨"  ", rfl, by decide⟩,
   c4_blank_text envOk ⟨true, 24000⟩
     ⟨some "j4", ⟨some (.str "  "), none, none, none, none, none⟩⟩ ["/pre/existing"]
     (Or.inr ⟨"  ", rfl, by decide⟩)⟩

/-! ## C8: failed reference download yields a pure error object -/

/-- C8: for every job whose reference-audio value (after trimming) is an
`http(s)` URL whose fetch fails, the handler returns an object whose
single key is `error`, with a message beginning
"Failed to download audio prompt: " — in particular no `audio` or
`audio_url` key is present — and the only external call attempted is the
fetch. -/
theorem c8_download_failure (env : Env) (g : Globals) (job : Job) (fs0 : FS)
    (t : String) (exq cwq : ℚ) (f0 : String) (pv : PyVal) (v e : String)
    (hm : g.modelLoaded = true)
    (ht : pyStrip (job.input.text.getD (.str "")) = .ok t) (ht0 : t ≠ "")
    (hex : pyFloat (job.input.exaggeration.getD (.num (1 / 2))) = .ok exq)
    (hcw : pyFloat (job.input.cfg_weight.getD (.num (1 / 2))) = .ok cwq)
    (hf : pyLower (job.input.output_format.getD (.str "wav")) = .ok f0)
    (hap : job.input.audio_prompt = some pv)
    (hv : pyStrip pv = .ok v)
    (hsw : (strStartsWith v "http://" || strStartsWith v "https://") = true)
    (hdl : env.download v = .error e) :
    (handler env g job fs0).res =
      .ok [("error", RVal.s ("Failed to download audio prompt: " ++ e))] ∧
    (handler env g job fs0).events = [.fetch v] := by
  unfold handler handlerMain download_audio
  simp only [hm, ht, ht0, hex, hcw, hf, hap, hv, hsw, hdl]
  simp

theorem c8_download_failure_witness :
    envDl.download "https://a.com/x.wav" = .error "timeout" ∧
    (handler envDl ⟨true, 24000⟩
        ⟨some "j8", ⟨some (.str "hi"), some (.str " https://a.com/x.wav "), none, none,
          none, none⟩⟩ []).res =
      .ok [("error", RVal.s ("Failed to download audio prompt: " ++ "timeout"))] ∧
    (handler envDl ⟨true, 24000⟩
        ⟨some "j8", ⟨some (.str "hi"), some (.str " https://a.com/x.wav "), none, none,
          none, none⟩⟩ []).events = [.fetch "https://a.com/x.wav"] := by
  refine ⟨rfl, ?_⟩
  exact c8_download_failure envDl ⟨true, 24000⟩
    ⟨some "j8", ⟨some (.str "hi"), some (.str " https://a.com/x.wav "), none, none, none,
      none⟩⟩ []
    "hi" (1 / 2) (1 / 2) "wav" (.str " https://a.com/x.wav ") "https://a.com/x.wav"
    "timeout" rfl (by decide) (by decide) rfl rfl (by decide) rfl (by decide) (by decide) rfl

/-! ## C2: counterexample — a malformed input type crashes the handler -/

/-- C2 is refuted as stated: a job whose `text` value is the number `5`
makes the handler raise an uncaught `AttributeError` at the `.strip()`
call (handler.py line 170, outside any `try/except`), rather than
returning an `{error: string}` object. -/
theorem c2_crash_counterexample :
    (handler envOk ⟨true, 24000⟩
        ⟨some "j2", ⟨some (.num 5), none, none, none, none, none⟩⟩ []).res =
      .error "AttributeError: no attribute strip" := by
  decide

/-! ## C6: counterexample — "MP3" is outside {"wav","mp3"} but yields mp3 -/

/-- The returned dictionary of a handler outcome (empty on a crash). -/
def resDict : Except String Dict → Dict
  | .ok d => d
  | .error _ => []

/-- C6 is refuted as stated: for `output_format` value `"MP3"` — a value
not in `{"wav", "mp3"}` — the effective format is `"mp3"`, not `"wav"`:
the result's `format` field is `"mp3"` and the encoder runs the lossy
path (intermediate `j6_temp.wav` plus ffmpeg) rather than writing
`j6.wav`. -/
theorem c6_format_counterexample :
    dictFind (resDict (handler envOk ⟨true, 24000⟩
        ⟨some "j6", ⟨some (.str "hi"), none, none, none, some (.str "MP3"), none⟩⟩ []).res)
        "format" = some (RVal.s "mp3") ∧
    (handler envOk ⟨true, 24000⟩
        ⟨some "j6", ⟨some (.str "hi"), none, none, none, some (.str "MP3"), none⟩⟩ []).events =
      [.generate, .save "/app/output/j6_temp.wav", .ffmpeg] ∧
    ¬("MP3" = "wav" ∨ "MP3" = "mp3") := by
  decide

/-! ## Event-trace structure lemmas -/

theorem saveOutput_no_resolve (env : Env) (jid fmt path : String) (fs : FS) :
    ((saveOutput env jid fmt path fs).2.2).all (fun ev => !isResolveEvent ev) = true := by
  unfold saveOutput
  dsimp only
  (repeat' split) <;> rfl

theorem upload_to_r2_no_resolve (env : Env) (fp jid ext : String) :
    ((upload_to_r2 env fp jid ext).2).all (fun ev => !isResolveEvent ev) = true := by
  unfold upload_to_r2
  dsimp only
  (repeat' split) <;> rfl

theorem publish_no_resolve (env : Env) (jid fmt path : String) (rb : PyVal)
    (result : Dict) (fs : FS) :
    ((publish env jid fmt path rb result fs).2.2).all (fun ev => !isResolveEvent ev) = true := by
  unfold publish
  split
  · rcases hu : upload_to_r2 env path jid fmt with ⟨o, evs⟩
    have hall := upload_to_r2_no_resolve env path jid fmt
    rw [hu] at hall
    cases o <;> simpa using hall
  · rfl

theorem afterPrompt_temp (env : Env) (g : Globals) (jid t : String) (a b : ℚ)
    (fmt : String) (rb : PyVal) (app temp : Option String) (fs : FS) (evs : List Event) :
    (afterPrompt env g jid t a b fmt rb app temp fs evs).temp = temp := by
  unfold afterPrompt
  dsimp only
  (repeat' split) <;> rfl

theorem afterPrompt_events (env : Env) (g : Globals) (jid t : String) (a b : ℚ)
    (fmt : String) (rb : PyVal) (app temp : Option String) (fs : FS) (evs : List Event) :
    ∃ tail, (afterPrompt env g jid t a b fmt rb app temp fs evs).events = evs ++ tail ∧
      tail.all (fun ev => !isResolveEvent ev) = true := by
  unfold afterPrompt
  cases hg : env.generate t app a b with
  | error e => exact ⟨[.generate], rfl, rfl⟩
  | ok n =>
    rcases hs : saveOutput env jid fmt (OUTPUT_DIR ++ "/" ++ jid ++ "." ++ fmt) fs
      with ⟨r, fs1, evs2⟩
    have hsave := saveOutput_no_resolve env jid fmt (OUTPUT_DIR ++ "/" ++ jid ++ "." ++ fmt) fs
    rw [hs] at hsave
    simp only at hsave
    cases r with
    | error e =>
      refine ⟨[.generate] ++ evs2, ?_, ?_⟩
      · simp [hs, List.append_assoc]
      · simp_all [isResolveEvent]
    | ok u =>
      rcases hp : publish env jid fmt (OUTPUT_DIR ++ "/" ++ jid ++ "." ++ fmt) rb
          [("duration", RVal.q ((n : ℚ) / (g.sampleRate : ℚ))),
           ("sample_rate", RVal.n g.sampleRate), ("format", RVal.s fmt)] fs1
        with ⟨rp, fs2, evs3⟩
      have hpub := publish_no_resolve env jid fmt (OUTPUT_DIR ++ "/" ++ jid ++ "." ++ fmt) rb
        [("duration", RVal.q ((n : ℚ) / (g.sampleRate : ℚ))),
         ("sample_rate", RVal.n g.sampleRate), ("format", RVal.s fmt)] fs1
      rw [hp] at hpub
      simp only at hpub
      cases rp with
      | ok d =>
        refine ⟨[.generate] ++ evs2 ++ evs3, ?_, ?_⟩
        · simp [hs, hp, List.append_assoc]
        · simp_all [isResolveEvent]
      | error e =>
        refine ⟨[.generate] ++ evs2 ++ evs3, ?_, ?_⟩
        · simp [hs, hp, List.append_assoc]
        · simp_all [isResolveEvent]

theorem download_audio_tempWrite (env : Env) (url sp : String) (fs : FS) (p : String)
    (h : Event.tempWrite p ∈ (download_audio env url sp fs).2) :
    p = sp ∧ (download_audio env url sp fs).1 = .ok (fsWrite fs sp) := by
  unfold download_audio at h ⊢
  by_cases hc : (strStartsWith url "http://" || strStartsWith url "https://") = true
  · rw [if_pos hc] at h ⊢
    cases hd : env.download url with
    | error e => rw [hd] at h; simp at h
    | ok u =>
      rw [hd] at h
      simp at h
      exact ⟨h, rfl⟩
  · rw [if_neg hc] at h
    simp at h

/-- Case analysis of a handler run: either it stops before the `try`
block (model check, text validation, parameter coercion — filesystem
untouched, no events), or all of those succeed and the run is the
`try`-body followed by the `finally` cleanup. -/
theorem handler_cases (env : Env) (g : Globals) (job : Job) (fs0 : FS) :
    (∃ r, handler env g job fs0 = ⟨r, fs0, []⟩) ∨
    ∃ t ex cw f0,
      pyStrip (job.input.text.getD (.str "")) = .ok t ∧ t ≠ "" ∧
      pyFloat (job.input.exaggeration.getD (.num (1 / 2))) = .ok ex ∧
      pyFloat (job.input.cfg_weight.getD (.num (1 / 2))) = .ok cw ∧
      pyLower (job.input.output_format.getD (.str "wav")) = .ok f0 ∧
      g.modelLoaded = true ∧
      handler env g job fs0 =
        finallyCleanup (handlerMain env g (job.id.getD env.freshId) job.input t ex cw
          (if f0 = "wav" || f0 = "mp3" then f0 else "wav")
          (job.input.return_base64.getD (.pbool false)) fs0) := by
  unfold handler
  cases hm : g.modelLoaded
  · exact Or.inl ⟨.ok [("error", RVal.s "Model failed to load at startup")], by simp⟩
  · cases hts : pyStrip (job.input.text.getD (.str "")) with
    | error e => exact Or.inl ⟨.error e, by simp [hts]⟩
    | ok t =>
      by_cases ht0 : t = ""
      · exact Or.inl ⟨.ok [("error", RVal.s "Missing required parameter: text")],
          by simp [hts, ht0]⟩
      · cases hex : pyFloat (job.input.exaggeration.getD (.num (1 / 2))) with
        | error e => exact Or.inl ⟨.error e, by simp [hts, ht0, hex]⟩
        | ok ex =>
          cases hcw : pyFloat (job.input.cfg_weight.getD (.num (1 / 2))) with
          | error e => exact Or.inl ⟨.error e, by simp [hts, ht0, hex, hcw]⟩
          | ok cw =>
            cases hf : pyLower (job.input.output_format.getD (.str "wav")) with
            | error e => exact Or.inl ⟨.error e, by simp [hts, ht0, hex, hcw, hf]⟩
            | ok f0 =>
              refine Or.inr ⟨t, ex, cw, f0, rfl, ht0, rfl, rfl, rfl, rfl, ?_⟩
              simp [hts, ht0, hex, hcw, hf]

/-- A `tempWrite p` event in the `try`-body trace pins `temp_audio_file`
to exactly `p`. -/
theorem handlerMain_tempWrite (env : Env) (g : Globals) (jid : String) (input : JobInput)
    (t : String) (a b : ℚ) (fmt : String) (rb : PyVal) (fs : FS) (p : String)
    (h : Event.tempWrite p ∈ (handlerMain env g jid input t a b fmt rb fs).events) :
    (handlerMain env g jid input t a b fmt rb fs).temp = some p := by
  unfold handlerMain at h ⊢
  cases hap : input.audio_prompt with
  | none =>
    rw [hap] at h
    dsimp only at h ⊢
    obtain ⟨tail, htl, hall⟩ := afterPrompt_events env g jid t a b fmt rb none none fs []
    rw [htl] at h
    simp only [List.nil_append] at h
    have := List.all_eq_true.mp hall _ h
    simp [isResolveEvent] at this
  | some pv =>
    rw [hap] at h
    dsimp only at h ⊢
    cases hsv : pyStrip pv with
    | error e => rw [hsv] at h; simp at h
    | ok v =>
      rw [hsv] at h
      dsimp only at h ⊢
      by_cases hsw : (strStartsWith v "http://" || strStartsWith v "https://") = true
      · rw [if_pos hsw] at h ⊢
        rcases hda : download_audio env v (INPUT_DIR ++ "/" ++ jid ++ "_prompt.wav") fs
          with ⟨r, evs⟩
        rw [hda] at h
        try rw [hda]
        cases r with
        | error e =>
          dsimp only at h
          obtain ⟨hp, hok⟩ := download_audio_tempWrite env v
            (INPUT_DIR ++ "/" ++ jid ++ "_prompt.wav") fs p (by rw [hda]; exact h)
          rw [hda] at hok
          simp at hok
        | ok fs1 =>
          dsimp only at h ⊢
          obtain ⟨tail, htl, hall⟩ := afterPrompt_events env g jid t a b fmt rb
            (some (INPUT_DIR ++ "/" ++ jid ++ "_prompt.wav"))
            (some (INPUT_DIR ++ "/" ++ jid ++ "_prompt.wav")) fs1 evs
          rw [htl] at h
          rw [afterPrompt_temp]
          rcases List.mem_append.mp h with hin | hin
          · obtain ⟨hp, _⟩ := download_audio_tempWrite env v
              (INPUT_DIR ++ "/" ++ jid ++ "_prompt.wav") fs p (by rw [hda]; exact hin)
            rw [hp]
          · have := List.all_eq_true.mp hall _ hin
            simp [isResolveEvent] at this
      · rw [if_neg hsw] at h ⊢
        cases hbd : env.b64decode v with
        | error e => rw [hbd] at h; simp at h
        | ok u =>
          rw [hbd] at h
          dsimp only at h ⊢
          obtain ⟨tail, htl, hall⟩ := afterPrompt_events env g jid t a b fmt rb
            (some (INPUT_DIR ++ "/" ++ jid ++ "_prompt.wav"))
            (some (INPUT_DIR ++ "/" ++ jid ++ "_prompt.wav"))
            (fsWrite fs (INPUT_DIR ++ "/" ++ jid ++ "_prompt.wav"))
            [.decodeB64 v, .tempWrite (INPUT_DIR ++ "/" ++ jid ++ "_prompt.wav")]
          rw [htl] at h
          rw [afterPrompt_temp]
          rcases List.mem_append.mp h with hin | hin
          · simp at hin
            rw [hin]
          · have := List.all_eq_true.mp hall _ hin
            simp [isResolveEvent] at this

/-! ## C1: the reference-audio temp file is always cleaned up -/

/-- C1: in every job in which a reference-audio temporary file is created
(recorded as a `tempWrite` event, whether from the URL download or the
base64 decode), that file is absent from the filesystem when the handler
returns, on every exit path — success, synthesis failure, encode failure,
and even an uncaught exception inside the `try` body — because the
`finally` cleanup always runs. -/
theorem c1_temp_file_cleanup (env : Env) (g : Globals) (job : Job) (fs0 : FS) (p : String)
    (h : Event.tempWrite p ∈ (handler env g job fs0).events) :
    p ∉ (handler env g job fs0).fs := by
  rcases handler_cases env g job fs0 with ⟨r, hr⟩ | ⟨t, ex, cw, f0, _, _, _, _, _, _, heq⟩
  · rw [hr] at h
    simp at h
  · rw [heq] at h ⊢
    rw [finallyCleanup_events] at h
    exact finallyCleanup_temp_absent _ p (handlerMain_tempWrite env g _ _ t ex cw _ _ fs0 p h)

theorem c1_temp_file_cleanup_witness :
    Event.tempWrite "/app/input/j1b_prompt.wav" ∈
      (handler envOk ⟨true, 24000⟩
        ⟨some "j1b", ⟨some (.str "hi"), some (.str "QUJD"), none, none, none, none⟩⟩
        []).events ∧
    "/app/input/j1b_prompt.wav" ∉
      (handler envOk ⟨true, 24000⟩
        ⟨some "j1b", ⟨some (.str "hi"), some (.str "QUJD"), none, none, none, none⟩⟩
        []).fs :=
  ⟨by decide,
   c1_temp_file_cleanup envOk ⟨true, 24000⟩
     ⟨some "j1b", ⟨some (.str "hi"), some (.str "QUJD"), none, none, none, none⟩⟩ []
     "/app/input/j1b_prompt.wav" (by decide)⟩

/-! ## C3: the resolver branches on the URL prefix, exclusively -/

/-- C3: whenever the input resolver runs on a reference-audio value
(model loaded, text valid, parameters coerced), a value beginning with
"http://" or "https://" always leads to a network fetch and never a
base64 decode, and any other non-empty value always leads to a base64
decode and never a network fetch. -/
theorem c3_resolver_branching (env : Env) (g : Globals) (job : Job) (fs0 : FS)
    (t : String) (exq cwq : ℚ) (f0 : String) (pv : PyVal) (v : String)
    (hm : g.modelLoaded = true)
    (ht : pyStrip (job.input.text.getD (.str "")) = .ok t) (ht0 : t ≠ "")
    (hex : pyFloat (job.input.exaggeration.getD (.num (1 / 2))) = .ok exq)
    (hcw : pyFloat (job.input.cfg_weight.getD (.num (1 / 2))) = .ok cwq)
    (hf : pyLower (job.input.output_format.getD (.str "wav")) = .ok f0)
    (hap : job.input.audio_prompt = some pv)
    (hv : pyStrip pv = .ok v) :
    if (strStartsWith v "http://" || strStartsWith v "https://") = true then
      Event.fetch v ∈ (handler env g job fs0).events ∧
        ∀ s, Event.decodeB64 s ∉ (handler env g job fs0).events
    else v ≠ "" →
      Event.decodeB64 v ∈ (handler env g job fs0).events ∧
        ∀ u, Event.fetch u ∉ (handler env g job fs0).events := by
  unfold handler handlerMain download_audio
  simp only [hm, ht, ht0, hex, hcw, hf, hap, hv, ne_eq, if_false, reduceIte,
    finallyCleanup_events]
  by_cases hsw : (strStartsWith v "http://" || strStartsWith v "https://") = true
  · rw [if_pos hsw, if_pos hsw, if_pos hsw]
    cases hd : env.download v with
    | error e =>
      dsimp only [finallyCleanup_events]
      simp
    | ok u =>
      dsimp only [finallyCleanup_events]
      obtain ⟨tail, htl, hall⟩ := afterPrompt_events env g (job.id.getD env.freshId) t exq cwq
        (if f0 = "wav" || f0 = "mp3" then f0 else "wav")
        (job.input.return_base64.getD (.pbool false))
        (some (INPUT_DIR ++ "/" ++ (job.id.getD env.freshId) ++ "_prompt.wav"))
        (some (INPUT_DIR ++ "/" ++ (job.id.getD env.freshId) ++ "_prompt.wav"))
        (fsWrite fs0 (INPUT_DIR ++ "/" ++ (job.id.getD env.freshId) ++ "_prompt.wav"))
        [.fetch v, .tempWrite (INPUT_DIR ++ "/" ++ (job.id.getD env.freshId) ++ "_prompt.wav")]
      rw [htl]
      constructor
      · simp
      · intro s hs
        rcases List.mem_append.mp hs with hin | hin
        · simp at hin
        · have := List.all_eq_true.mp hall _ hin
          simp [isResolveEvent] at this
  · rw [if_neg hsw, if_neg hsw]
    intro hne
    cases hbd : env.b64decode v with
    | error e =>
      dsimp only [finallyCleanup_events]
      simp
    | ok u =>
      dsimp only [finallyCleanup_events]
      obtain ⟨tail, htl, hall⟩ := afterPrompt_events env g (job.id.getD env.freshId) t exq cwq
        (if f0 = "wav" || f0 = "mp3" then f0 else "wav")
        (job.input.return_base64.getD (.pbool false))
        (some (INPUT_DIR ++ "/" ++ (job.id.getD env.freshId) ++ "_prompt.wav"))
        (some (INPUT_DIR ++ "/" ++ (job.id.getD env.freshId) ++ "_prompt.wav"))
        (fsWrite fs0 (INPUT_DIR ++ "/" ++ (job.id.getD env.freshId) ++ "_prompt.wav"))
        [.decodeB64 v, .tempWrite (INPUT_DIR ++ "/" ++ (job.id.getD env.freshId) ++ "_prompt.wav")]
      rw [htl]
      constructor
      · simp
      · intro u2 hs
        rcases List.mem_append.mp hs with hin | hin
        · simp at hin
        · have := List.all_eq_true.mp hall _ hin
          simp [isResolveEvent] at this

theorem c3_resolver_branching_witness :
    if (strStartsWith "https://a.com/x.wav" "http://" ||
        strStartsWith "https://a.com/x.wav" "https://") = true then
      Event.fetch "https://a.com/x.wav" ∈
        (handler envOk ⟨true, 24000⟩
          ⟨some "j3", ⟨some (.str "hi"), some (.str " https://a.com/x.wav "), none, none,
            none, none⟩⟩ []).events ∧
        ∀ s, Event.decodeB64 s ∉
          (handler envOk ⟨true, 24000⟩
            ⟨some "j3", ⟨some (.str "hi"), some (.str " https://a.com/x.wav "), none, none,
              none, none⟩⟩ []).events
    else "https://a.com/x.wav" ≠ "" →
      Event.decodeB64 "https://a.com/x.wav" ∈
        (handler envOk ⟨true, 24000⟩
          ⟨some "j3", ⟨some (.str "hi"), some (.str " https://a.com/x.wav "), none, none,
            none, none⟩⟩ []).events ∧
        ∀ u, Event.fetch u ∉
          (handler envOk ⟨true, 24000⟩
            ⟨some "j3", ⟨some (.str "hi"), some (.str " https://a.com/x.wav "), none, none,
              none, none⟩⟩ []).events :=
  c3_resolver_branching envOk ⟨true, 24000⟩
    ⟨some "j3", ⟨some (.str "hi"), some (.str " https://a.com/x.wav "), none, none, none,
      none⟩⟩ []
    "hi" (1 / 2) (1 / 2) "wav" (.str " https://a.com/x.wav ") "https://a.com/x.wav"
    rfl (by decide) (by decide) rfl rfl (by decide) rfl (by decide)

/-! ## C2: uniform error objects on well-typed inputs -/

/-- Job-input values accepted by the Python builtin `float()`. -/
def floatOk : PyVal → Bool
  | .num _ => true
  | .pbool _ => true
  | .str s => (parseFloat s).isSome
  | .pnone => false

/-- String-valued job-input values. -/
def isStrVal : PyVal → Bool
  | .str _ => true
  | _ => false

/-- Lifts a value predicate to an optional field (an absent field is
always fine — the handler substitutes a default). -/
def optOk (p : PyVal → Bool) : Option PyVal → Bool
  | none => true
  | some v => p v

/-- Well-typed job inputs: `text`, `audio_prompt` and `output_format` are
strings when present, and the tuning parameters are values `float()`
accepts; `return_base64` may be anything (only its truthiness is used). -/
def WellTyped (i : JobInput) : Bool :=
  optOk isStrVal i.text && optOk isStrVal i.audio_prompt &&
  optOk floatOk i.exaggeration && optOk floatOk i.cfg_weight &&
  optOk isStrVal i.output_format

theorem floatOk_pyFloat (v : PyVal) (h : floatOk v = true) : ∃ q, pyFloat v = .ok q := by
  cases v with
  | num q => exact ⟨q, rfl⟩
  | pbool b => exact ⟨if b then 1 else 0, rfl⟩
  | str s =>
    simp only [floatOk, Option.isSome_iff_exists] at h
    obtain ⟨q, hq⟩ := h
    exact ⟨q, by simp [pyFloat, hq]⟩
  | pnone => simp [floatOk] at h

theorem optFloat_ok (o : Option PyVal) (h : optOk floatOk o = true) :
    ∃ q, pyFloat (o.getD (.num (1 / 2))) = .ok q := by
  cases o with
  | none => exact ⟨1 / 2, rfl⟩
  | some v => exact floatOk_pyFloat v h

/-- A response dictionary is uniform when it either carries no `error`
key (success shape) or is exactly the one-key error object. -/
def UniformDict (d : Dict) : Prop :=
  dictFind d "error" = none ∨ ∃ m, d = [("error", RVal.s m)]

theorem publish_res (env : Env) (jid fmt path : String) (rb : PyVal)
    (result : Dict) (fs : FS) :
    ∃ d, (publish env jid fmt path rb result fs).1 = .ok d ∧
      dictFind d "error" = dictFind result "error" := by
  unfold publish
  split
  · rcases hu : upload_to_r2 env path jid fmt with ⟨o, evs⟩
    cases o with
    | some url =>
      exact ⟨_, rfl, dictFind_dictSet_ne result "audio_url" "error" _ (by decide)⟩
    | none =>
      exact ⟨_, rfl, dictFind_dictSet_ne result "audio" "error" _ (by decide)⟩
  · exact ⟨_, rfl, dictFind_dictSet_ne result "audio" "error" _ (by decide)⟩

theorem afterPrompt_uniform (env : Env) (g : Globals) (jid t : String) (a b : ℚ)
    (fmt : String) (rb : PyVal) (app temp : Option String) (fs : FS) (evs : List Event) :
    ∃ d, (afterPrompt env g jid t a b fmt rb app temp fs evs).res = .ok d ∧ UniformDict d := by
  unfold afterPrompt
  cases hg : env.generate t app a b with
  | error e => exact ⟨_, rfl, Or.inr ⟨_, rfl⟩⟩
  | ok n =>
    dsimp only
    rcases hs : saveOutput env jid fmt (OUTPUT_DIR ++ "/" ++ jid ++ "." ++ fmt) fs
      with ⟨r, fs1, evs2⟩
    cases r with
    | error e => exact ⟨_, rfl, Or.inr ⟨_, rfl⟩⟩
    | ok u =>
      dsimp only
      obtain ⟨d, hd, hfind⟩ := publish_res env jid fmt (OUTPUT_DIR ++ "/" ++ jid ++ "." ++ fmt)
        rb [("duration", RVal.q ((n : ℚ) / (g.sampleRate : ℚ))),
            ("sample_rate", RVal.n g.sampleRate), ("format", RVal.s fmt)] fs1
      rcases hp : publish env jid fmt (OUTPUT_DIR ++ "/" ++ jid ++ "." ++ fmt) rb
          [("duration", RVal.q ((n : ℚ) / (g.sampleRate : ℚ))),
           ("sample_rate", RVal.n g.sampleRate), ("format", RVal.s fmt)] fs1
        with ⟨rp, fs2, evs3⟩
      rw [hp] at hd
      dsimp only at hd
      rw [hd]
      refine ⟨d, rfl, Or.inl ?_⟩
      rw [hfind]
      simp [dictFind]

theorem handlerMain_uniform (env : Env) (g : Globals) (jid : String) (input : JobInput)
    (t : String) (a b : ℚ) (fmt : String) (rb : PyVal) (fs : FS)
    (hap : optOk isStrVal input.audio_prompt = true) :
    ∃ d, (handlerMain env g jid input t a b fmt rb fs).res = .ok d ∧ UniformDict d := by
  unfold handlerMain
  cases hapv : input.audio_prompt with
  | none => exact afterPrompt_uniform env g jid t a b fmt rb none none fs []
  | some pv =>
    rw [hapv] at hap
    cases pv with
    | num q => simp [optOk, isStrVal] at hap
    | pbool bb => simp [optOk, isStrVal] at hap
    | pnone => simp [optOk, isStrVal] at hap
    | str s =>
      dsimp only [pyStrip]
      by_cases hsw : (strStartsWith (trimStr s) "http://" ||
          strStartsWith (trimStr s) "https://") = true
      · rw [if_pos hsw]
        unfold download_audio
        rw [if_pos hsw]
        cases hd : env.download (trimStr s) with
        | error e => exact ⟨_, rfl, Or.inr ⟨_, rfl⟩⟩
        | ok u =>
          exact afterPrompt_uniform env g jid t a b fmt rb _ _ _ _
      · rw [if_neg hsw]
        cases hbd : env.b64decode (trimStr s) with
        | error e => exact ⟨_, rfl, Or.inr ⟨_, rfl⟩⟩
        | ok u => exact afterPrompt_uniform env g jid t a b fmt rb _ _ _ _

/-- C2, amended to well-typed field values: for every job input whose
present fields have the types their consumers accept, the handler never
lets an exception escape, and every failure response is exactly the
one-key `{error: string}` object (success responses carry no `error`
key).  The unamended claim is refuted by `c2_crash_counterexample`. -/
theorem c2_uniform_errors (env : Env) (g : Globals) (job : Job) (fs0 : FS)
    (h : WellTyped job.input = true) :
    ∃ d, (handler env g job fs0).res = .ok d ∧
      (dictFind d "error" = none ∨ ∃ m, d = [("error", RVal.s m)]) := by
  simp only [WellTyped, Bool.and_eq_true] at h
  obtain ⟨⟨⟨⟨h1, h2⟩, h3⟩, h4⟩, h5⟩ := h
  unfold handler
  cases hm : g.modelLoaded
  · exact ⟨[("error", RVal.s "Model failed to load at startup")], by simp, Or.inr ⟨_, rfl⟩⟩
  · obtain ⟨exq, hex⟩ := optFloat_ok job.input.exaggeration h3
    obtain ⟨cwq, hcw⟩ := optFloat_ok job.input.cfg_weight h4
    cases hat : job.input.text with
    | none =>
      have hts : pyStrip ((none : Option PyVal).getD (.str "")) = .ok "" := by decide
      rw [hts]
      exact ⟨[("error", RVal.s "Missing required parameter: text")], by simp,
        Or.inr ⟨_, rfl⟩⟩
    | some tv =>
      rw [hat] at h1
      cases tv with
      | num q => simp [optOk, isStrVal] at h1
      | pbool bb => simp [optOk, isStrVal] at h1
      | pnone => simp [optOk, isStrVal] at h1
      | str s =>
        dsimp only [Option.getD, pyStrip]
        dsimp only [Option.getD] at hex hcw
        by_cases hts0 : trimStr s = ""
        · rw [if_pos hts0]
          exact ⟨[("error", RVal.s "Missing required parameter: text")], rfl,
            Or.inr ⟨_, rfl⟩⟩
        · rw [if_neg hts0, hex, hcw]
          cases hof : job.input.output_format with
          | none =>
            have hlf : pyLower (PyVal.str "wav") = .ok "wav" := by decide
            dsimp only
            rw [hlf]
            obtain ⟨d, hd, hu⟩ := handlerMain_uniform env g (job.id.getD env.freshId)
              job.input (trimStr s) exq cwq
              (if ("wav" : String) = "wav" || ("wav" : String) = "mp3" then "wav" else "wav")
              (job.input.return_base64.getD (.pbool false)) fs0 h2
            exact ⟨d, hd, hu⟩
          | some fv =>
            rw [hof] at h5
            cases fv with
            | num q => simp [optOk, isStrVal] at h5
            | pbool bb => simp [optOk, isStrVal] at h5
            | pnone => simp [optOk, isStrVal] at h5
            | str fstr =>
              dsimp only [pyLower]
              obtain ⟨d, hd, hu⟩ := handlerMain_uniform env g (job.id.getD env.freshId)
                job.input (trimStr s) exq cwq
                (if lowerStr fstr = "wav" || lowerStr fstr = "mp3" then lowerStr fstr
                 else "wav")
                (job.input.return_base64.getD (.pbool false)) fs0 h2
              exact ⟨d, hd, hu⟩

theorem c2_uniform_errors_witness :
    WellTyped (⟨some (.str "hi"), some (.str "QUJD"), some (.num 1), some (.str "0.3"),
      some (.str "WAV"), some (.pbool true)⟩ : JobInput) = true ∧
    ∃ d, (handler envOk ⟨true, 24000⟩
        ⟨some "j2w", ⟨some (.str "hi"), some (.str "QUJD"), some (.num 1), some (.str "0.3"),
          some (.str "WAV"), some (.pbool true)⟩⟩ []).res = .ok d ∧
      (dictFind d "error" = none ∨ ∃ m, d = [("error", RVal.s m)]) :=
  ⟨by decide,
   c2_uniform_errors envOk ⟨true, 24000⟩
     ⟨some "j2w", ⟨some (.str "hi"), some (.str "QUJD"), some (.num 1), some (.str "0.3"),
       some (.str "WAV"), some (.pbool true)⟩⟩ [] (by decide)⟩

/-! ## Success-run machinery for the publish-stage claims -/

/-- The effective output format the handler computes from the job input:
lowercase the field (default "wav") and fall back to "wav" off the known
set. -/
def effFmt (i : JobInput) : String :=
  match pyLower (i.output_format.getD (.str "wav")) with
  | .ok f0 => if f0 = "wav" || f0 = "mp3" then f0 else "wav"
  | .error _ => "wav"

/-- Hypotheses under which a job passes the model check, validation and
coercion, its reference-audio resolution succeeds (or there is none), and
synthesis succeeds. -/
structure ReachesGen (env : Env) (g : Globals) (job : Job) : Prop where
  model : g.modelLoaded = true
  textOk : ∃ t, pyStrip (job.input.text.getD (.str "")) = .ok t ∧ t ≠ ""
  exaggOk : ∃ q, pyFloat (job.input.exaggeration.getD (.num (1 / 2))) = .ok q
  cfgOk : ∃ q, pyFloat (job.input.cfg_weight.getD (.num (1 / 2))) = .ok q
  fmtOk : ∃ f, pyLower (job.input.output_format.getD (.str "wav")) = .ok f
  promptOk : match job.input.audio_prompt with
    | none => True
    | some pv => ∃ v, pyStrip pv = .ok v ∧
        (if (strStartsWith v "http://" || strStartsWith v "https://") = true
         then env.download v = .ok () else env.b64decode v = .ok ())
  genOk : ∀ t p a b, ∃ n, env.generate t p a b = .ok n

theorem saveOutput_ok (env : Env) (jid fmt path : String) (fs : FS)
    (hsv : ∀ p, env.taSave p = .ok ()) (hff : env.ffmpeg = .ok ()) :
    ∃ fs1, saveOutput env jid fmt path fs =
      (.ok (), fs1,
       if fmt = "wav" then [Event.save path]
       else [Event.save (OUTPUT_DIR ++ "/" ++ jid ++ "_temp.wav"), Event.ffmpeg]) := by
  unfold saveOutput
  by_cases hw : fmt = "wav"
  · rw [if_pos hw, hsv, if_pos hw]
    exact ⟨_, rfl⟩
  · rw [if_neg hw, if_neg hw]
    dsimp only
    rw [hsv, hff]
    exact ⟨_, rfl⟩

theorem afterPrompt_success (env : Env) (g : Globals) (jid t : String) (a b : ℚ)
    (fmt : String) (rb : PyVal) (app temp : Option String) (fs : FS) (evs : List Event)
    (hgen : ∀ t' p' a' b', ∃ n, env.generate t' p' a' b' = .ok n)
    (hsv : ∀ p, env.taSave p = .ok ()) (hff : env.ffmpeg = .ok ()) :
    ∃ n fs1,
      (afterPrompt env g jid t a b fmt rb app temp fs evs).res =
        (publish env jid fmt (OUTPUT_DIR ++ "/" ++ jid ++ "." ++ fmt) rb
          [("duration", RVal.q ((n : ℚ) / (g.sampleRate : ℚ))),
           ("sample_rate", RVal.n g.sampleRate), ("format", RVal.s fmt)] fs1).1 ∧
      (fmt = "wav" → Event.save (OUTPUT_DIR ++ "/" ++ jid ++ ".wav") ∈
        (afterPrompt env g jid t a b fmt rb app temp fs evs).events) := by
  obtain ⟨n, hg⟩ := hgen t app a b
  unfold afterPrompt
  rw [hg]
  dsimp only
  obtain ⟨fs1, hso⟩ := saveOutput_ok env jid fmt (OUTPUT_DIR ++ "/" ++ jid ++ "." ++ fmt) fs
    hsv hff
  rw [hso]
  dsimp only
  refine ⟨n, fs1, ?_, ?_⟩
  · rcases hp : publish env jid fmt (OUTPUT_DIR ++ "/" ++ jid ++ "." ++ fmt) rb
        [("duration", RVal.q ((n : ℚ) / (g.sampleRate : ℚ))),
         ("sample_rate", RVal.n g.sampleRate), ("format", RVal.s fmt)] fs1
      with ⟨rp, fs2, evs3⟩
    cases rp <;> rfl
  · intro hw
    subst hw
    have hpath : OUTPUT_DIR ++ "/" ++ jid ++ ".wav" =
        OUTPUT_DIR ++ "/" ++ jid ++ "." ++ "wav" := by
      rw [strAppend_assoc (OUTPUT_DIR ++ "/" ++ jid) "." "wav",
        show ("." ++ "wav" : String) = ".wav" from by decide]
    rcases hp : publish env jid "wav" (OUTPUT_DIR ++ "/" ++ jid ++ "." ++ "wav") rb
        [("duration", RVal.q ((n : ℚ) / (g.sampleRate : ℚ))),
         ("sample_rate", RVal.n g.sampleRate), ("format", RVal.s "wav")] fs1
      with ⟨rp, fs2, evs3⟩
    cases rp <;> simp [hpath]

theorem handler_success_run (env : Env) (g : Globals) (job : Job) (fs0 : FS)
    (h : ReachesGen env g job)
    (hsv : ∀ p, env.taSave p = .ok ()) (hff : env.ffmpeg = .ok ()) :
    ∃ n fs1,
      (handler env g job fs0).res =
        (publish env (job.id.getD env.freshId) (effFmt job.input)
          (OUTPUT_DIR ++ "/" ++ job.id.getD env.freshId ++ "." ++ effFmt job.input)
          (job.input.return_base64.getD (.pbool false))
          [("duration", RVal.q ((n : ℚ) / (g.sampleRate : ℚ))),
           ("sample_rate", RVal.n g.sampleRate),
           ("format", RVal.s (effFmt job.input))] fs1).1 ∧
      (effFmt job.input = "wav" →
        Event.save (OUTPUT_DIR ++ "/" ++ job.id.getD env.freshId ++ ".wav") ∈
          (handler env g job fs0).events) := by
  obtain ⟨t, ht, ht0⟩ := h.textOk
  obtain ⟨exq, hex⟩ := h.exaggOk
  obtain ⟨cwq, hcw⟩ := h.cfgOk
  obtain ⟨f0, hf⟩ := h.fmtOk
  have heff : effFmt job.input = if f0 = "wav" || f0 = "mp3" then f0 else "wav" := by
    unfold effFmt
    rw [hf]
  unfold handler
  simp only [h.model, ht, ht0, hex, hcw, hf, ne_eq, reduceIte, if_true,
    finallyCleanup_res, finallyCleanup_events]
  rw [← heff]
  unfold handlerMain
  cases hap : job.input.audio_prompt with
  | none =>
    dsimp only
    obtain ⟨n, fs1, hres, hsa⟩ := afterPrompt_success env g (job.id.getD env.freshId) t
      exq cwq (effFmt job.input) (job.input.return_base64.getD (.pbool false))
      none none fs0 [] h.genOk hsv hff
    exact ⟨n, fs1, hres, hsa⟩
  | some pv =>
    have hp0 := h.promptOk
    rw [hap] at hp0
    dsimp only at hp0
    obtain ⟨v, hv, hcase⟩ := hp0
    dsimp only
    rw [hv]
    dsimp only
    by_cases hsw : (strStartsWith v "http://" || strStartsWith v "https://") = true
    · rw [if_pos hsw] at hcase ⊢
      unfold download_audio
      rw [if_pos hsw, hcase]
      dsimp only
      obtain ⟨n, fs1, hres, hsa⟩ := afterPrompt_success env g (job.id.getD env.freshId) t
        exq cwq (effFmt job.input) (job.input.return_base64.getD (.pbool false))
        (some (INPUT_DIR ++ "/" ++ job.id.getD env.freshId ++ "_prompt.wav"))
        (some (INPUT_DIR ++ "/" ++ job.id.getD env.freshId ++ "_prompt.wav"))
        (fsWrite fs0 (INPUT_DIR ++ "/" ++ job.id.getD env.freshId ++ "_prompt.wav"))
        [.fetch v, .tempWrite (INPUT_DIR ++ "/" ++ job.id.getD env.freshId ++ "_prompt.wav")]
        h.genOk hsv hff
      exact ⟨n, fs1, hres, hsa⟩
    · rw [if_neg hsw] at hcase ⊢
      rw [hcase]
      dsimp only
      obtain ⟨n, fs1, hres, hsa⟩ := afterPrompt_success env g (job.id.getD env.freshId) t
        exq cwq (effFmt job.input) (job.input.return_base64.getD (.pbool false))
        (some (INPUT_DIR ++ "/" ++ job.id.getD env.freshId ++ "_prompt.wav"))
        (some (INPUT_DIR ++ "/" ++ job.id.getD env.freshId ++ "_prompt.wav"))
        (fsWrite fs0 (INPUT_DIR ++ "/" ++ job.id.getD env.freshId ++ "_prompt.wav"))
        [.decodeB64 v, .tempWrite (INPUT_DIR ++ "/" ++ job.id.getD env.freshId ++ "_prompt.wav")]
        h.genOk hsv hff
      exact ⟨n, fs1, hres, hsa⟩

theorem publish_find (env : Env) (jid fmt path : String) (rb : PyVal)
    (result : Dict) (fs : FS) (k : String) (h1 : k ≠ "audio_url") (h2 : k ≠ "audio") :
    ∃ d, (publish env jid fmt path rb result fs).1 = .ok d ∧
      dictFind d k = dictFind result k := by
  unfold publish
  split
  · rcases hu : upload_to_r2 env path jid fmt with ⟨o, evs⟩
    cases o with
    | some url => exact ⟨_, rfl, dictFind_dictSet_ne result "audio_url" k _ h1⟩
    | none => exact ⟨_, rfl, dictFind_dictSet_ne result "audio" k _ h2⟩
  · exact ⟨_, rfl, dictFind_dictSet_ne result "audio" k _ h2⟩

/-! ## C5: upload failure silently degrades to embedded delivery -/

/-- C5: for every job that reaches publishing (model loaded, validation,
resolution, synthesis and save succeed) with a configured remote store,
no forced embedding, and an upload attempt that fails, the job does not
fail: the result carries the embedded `audio` payload and has neither an
`error` nor an `audio_url` key (so it never holds both `audio_url` and
`audio`). -/
theorem c5_upload_fallback (env : Env) (g : Globals) (job : Job) (fs0 : FS)
    (h : ReachesGen env g job)
    (hsv : ∀ p, env.taSave p = .ok ()) (hff : env.ffmpeg = .ok ())
    (hr2 : env.r2Configured = true)
    (hrb : pyTruthy (job.input.return_base64.getD (.pbool false)) = false)
    (hup : ∀ k, ∃ e, env.putObject k = .error e) :
    ∃ d, (handler env g job fs0).res = .ok d ∧
      (∃ s, dictFind d "audio" = some (RVal.s s)) ∧
      dictFind d "error" = none ∧ dictFind d "audio_url" = none := by
  obtain ⟨n, fs1, hres, _⟩ := handler_success_run env g job fs0 h hsv hff
  rw [hres]
  unfold publish upload_to_r2
  obtain ⟨e, hpe⟩ := hup ("tts/" ++ job.id.getD env.freshId ++ "." ++ effFmt job.input)
  rw [hr2, hrb]
  simp only [Bool.not_false, Bool.and_true, reduceIte]
  rw [hpe]
  refine ⟨_, rfl,
    ⟨env.fileB64 (OUTPUT_DIR ++ "/" ++ job.id.getD env.freshId ++ "." ++ effFmt job.input),
     ?_⟩, ?_, ?_⟩ <;> simp [dictSet, dictFind]

theorem c5_upload_fallback_witness :
    ∃ d, (handler envUp ⟨true, 24000⟩
        ⟨some "j5", ⟨some (.str "hi"), none, none, none, none, none⟩⟩ []).res = .ok d ∧
      (∃ s, dictFind d "audio" = some (RVal.s s)) ∧
      dictFind d "error" = none ∧ dictFind d "audio_url" = none :=
  c5_upload_fallback envUp ⟨true, 24000⟩
    ⟨some "j5", ⟨some (.str "hi"), none, none, none, none, none⟩⟩ []
    ⟨rfl, ⟨"hi", by decide, by decide⟩, ⟨1 / 2, rfl⟩, ⟨1 / 2, rfl⟩, ⟨"wav", by decide⟩,
     trivial, fun t p a b => ⟨12000, rfl⟩⟩
    (fun p => rfl) rfl rfl rfl (fun k => ⟨"store down", rfl⟩)

/-! ## C6 (amended) and C9: format normalization -/

theorem effFmt_of_bad (i : JobInput) (s : String) (hof : i.output_format = some (.str s))
    (h1 : lowerStr s ≠ "wav") (h2 : lowerStr s ≠ "mp3") : effFmt i = "wav" := by
  unfold effFmt
  rw [hof]
  dsimp only [Option.getD, pyLower]
  simp [h1, h2]

theorem effFmt_of_known (i : JobInput) (s : String) (hof : i.output_format = some (.str s))
    (h : lowerStr s = "wav" ∨ lowerStr s = "mp3") : effFmt i = lowerStr s := by
  unfold effFmt
  rw [hof]
  dsimp only [Option.getD, pyLower]
  rcases h with h | h <;> simp [h]

/-- C6, amended to string values: for every job whose `output_format`
value is a string whose lowercasing is not in {"wav", "mp3"}, the
effective format is "wav": the save step targets `{job_id}.wav` and the
result's `format` field is "wav".  The unamended claim (raw values
outside {"wav","mp3"}) is refuted by `c6_format_counterexample`, since
"MP3" lowercases into the known set. -/
theorem c6_format_fallback (env : Env) (g : Globals) (job : Job) (fs0 : FS)
    (h : ReachesGen env g job)
    (hsv : ∀ p, env.taSave p = .ok ()) (hff : env.ffmpeg = .ok ())
    (s : String) (hof : job.input.output_format = some (.str s))
    (h1 : lowerStr s ≠ "wav") (h2 : lowerStr s ≠ "mp3") :
    ∃ d, (handler env g job fs0).res = .ok d ∧
      dictFind d "format" = some (RVal.s "wav") ∧
      Event.save (OUTPUT_DIR ++ "/" ++ job.id.getD env.freshId ++ ".wav") ∈
        (handler env g job fs0).events := by
  have he := effFmt_of_bad job.input s hof h1 h2
  obtain ⟨n, fs1, hres, hsa⟩ := handler_success_run env g job fs0 h hsv hff
  obtain ⟨d, hd, hfd⟩ := publish_find env (job.id.getD env.freshId) (effFmt job.input)
    (OUTPUT_DIR ++ "/" ++ job.id.getD env.freshId ++ "." ++ effFmt job.input)
    (job.input.return_base64.getD (.pbool false))
    [("duration", RVal.q ((n : ℚ) / (g.sampleRate : ℚ))),
     ("sample_rate", RVal.n g.sampleRate), ("format", RVal.s (effFmt job.input))] fs1
    "format" (by decide) (by decide)
  refine ⟨d, ?_, ?_, hsa he⟩
  · rw [hres]
    exact hd
  · rw [hfd]
    simp [dictFind, he]

theorem c6_format_fallback_witness :
    ∃ d, (handler envOk ⟨true, 24000⟩
        ⟨some "j6w", ⟨some (.str "hi"), none, none, none, some (.str "FLAC"), none⟩⟩
        []).res = .ok d ∧
      dictFind d "format" = some (RVal.s "wav") ∧
      Event.save (OUTPUT_DIR ++ "/" ++ (some "j6w" : Option String).getD envOk.freshId ++
          ".wav") ∈
        (handler envOk ⟨true, 24000⟩
          ⟨some "j6w", ⟨some (.str "hi"), none, none, none, some (.str "FLAC"), none⟩⟩
          []).events :=
  c6_format_fallback envOk ⟨true, 24000⟩
    ⟨some "j6w", ⟨some (.str "hi"), none, none, none, some (.str "FLAC"), none⟩⟩ []
    ⟨rfl, ⟨"hi", by decide, by decide⟩, ⟨1 / 2, rfl⟩, ⟨1 / 2, rfl⟩,
     ⟨"flac", by decide⟩, trivial, fun t p a b => ⟨12000, rfl⟩⟩
    (fun p => rfl) rfl "FLAC" rfl (by decide) (by decide)

/-- C9: output-format matching is case-insensitive — for every job whose
`output_format` value is a string that lowercases into {"wav", "mp3"},
the effective format (reported in the result's `format` field) is the
lowercased value, not the "wav" fallback. -/
theorem c9_format_case_insensitive (env : Env) (g : Globals) (job : Job) (fs0 : FS)
    (h : ReachesGen env g job)
    (hsv : ∀ p, env.taSave p = .ok ()) (hff : env.ffmpeg = .ok ())
    (s : String) (hof : job.input.output_format = some (.str s))
    (hin : lowerStr s = "wav" ∨ lowerStr s = "mp3") :
    ∃ d, (handler env g job fs0).res = .ok d ∧
      dictFind d "format" = some (RVal.s (lowerStr s)) := by
  have he := effFmt_of_known job.input s hof hin
  obtain ⟨n, fs1, hres, _⟩ := handler_success_run env g job fs0 h hsv hff
  obtain ⟨d, hd, hfd⟩ := publish_find env (job.id.getD env.freshId) (effFmt job.input)
    (OUTPUT_DIR ++ "/" ++ job.id.getD env.freshId ++ "." ++ effFmt job.input)
    (job.input.return_base64.getD (.pbool false))
    [("duration", RVal.q ((n : ℚ) / (g.sampleRate : ℚ))),
     ("sample_rate", RVal.n g.sampleRate), ("format", RVal.s (effFmt job.input))] fs1
    "format" (by decide) (by decide)
  refine ⟨d, ?_, ?_⟩
  · rw [hres]
    exact hd
  · rw [hfd]
    simp [dictFind, he]

theorem c9_format_case_insensitive_witness :
    ∃ d, (handler envOk ⟨true, 24000⟩
        ⟨some "j9", ⟨some (.str "hi"), none, none, none, some (.str "WAV"), none⟩⟩
        []).res = .ok d ∧
      dictFind d "format" = some (RVal.s (lowerStr "WAV")) :=
  c9_format_case_insensitive envOk ⟨true, 24000⟩
    ⟨some "j9", ⟨some (.str "hi"), none, none, none, some (.str "WAV"), none⟩⟩ []
    ⟨rfl, ⟨"hi", by decide, by decide⟩, ⟨1 / 2, rfl⟩, ⟨1 / 2, rfl⟩,
     ⟨"wav", by decide⟩, trivial, fun t p a b => ⟨12000, rfl⟩⟩
    (fun p => rfl) rfl "WAV" rfl (Or.inl (by decide))

/-! ## C10: the mp3 intermediate survives a transcoder failure -/

theorem afterPrompt_ffmpeg_fail (env : Env) (g : Globals) (jid t : String) (a b : ℚ)
    (rb : PyVal) (app temp : Option String) (fs : FS) (evs : List Event) (e : String)
    (hgen : ∀ t' p' a' b', ∃ n, env.generate t' p' a' b' = .ok n)
    (hsv : ∀ p, env.taSave p = .ok ()) (hff : env.ffmpeg = .error e) :
    (afterPrompt env g jid t a b "mp3" rb app temp fs evs).res =
      .ok [("error", RVal.s ("Failed to save audio: " ++ e))] ∧
    (afterPrompt env g jid t a b "mp3" rb app temp fs evs).fs =
      fsWrite fs (OUTPUT_DIR ++ "/" ++ jid ++ "_temp.wav") ∧
    (afterPrompt env g jid t a b "mp3" rb app temp fs evs).temp = temp := by
  obtain ⟨n, hg⟩ := hgen t app a b
  unfold afterPrompt
  rw [hg]
  dsimp only
  unfold saveOutput
  rw [if_neg (by decide : ¬(("mp3" : String) = "wav"))]
  dsimp only
  rw [hsv, hff]
  exact ⟨rfl, rfl, rfl⟩

theorem input_output_ne (a b : String) :
    INPUT_DIR ++ "/" ++ a ≠ OUTPUT_DIR ++ "/" ++ b := by
  obtain ⟨ad⟩ := a
  obtain ⟨bd⟩ := b
  intro hq
  have hd : ('/' :: 'a' :: 'p' :: 'p' :: '/' :: 'i' :: 'n' :: 'p' :: 'u' :: 't' :: '/' :: ad)
      = ('/' :: 'a' :: 'p' :: 'p' :: '/' :: 'o' :: 'u' :: 't' :: 'p' :: 'u' :: 't' :: '/' :: bd) :=
    congrArg String.data hq
  simp at hd

theorem prompt_temp_ne (jid : String) :
    OUTPUT_DIR ++ "/" ++ jid ++ "_temp.wav" ≠ INPUT_DIR ++ "/" ++ jid ++ "_prompt.wav" := by
  rw [strAppend_assoc (OUTPUT_DIR ++ "/") jid "_temp.wav",
      strAppend_assoc (INPUT_DIR ++ "/") jid "_prompt.wav"]
  intro hq
  exact input_output_ne (jid ++ "_prompt.wav") (jid ++ "_temp.wav") hq.symm

/-- C10: on the lossy (mp3) path, when the external transcoder fails the
handler returns the save-failure error, yet the uncompressed intermediate
`{job_id}_temp.wav` is not deleted: it is still on the filesystem when
the handler returns (only a successful transcode deletes it; the
`finally` block removes only the reference-audio temp file). -/
theorem c10_mp3_intermediate_retained (env : Env) (g : Globals) (job : Job) (fs0 : FS)
    (h : ReachesGen env g job)
    (hsv : ∀ p, env.taSave p = .ok ())
    (hfmt : pyLower (job.input.output_format.getD (.str "wav")) = .ok "mp3")
    (e : String) (hff : env.ffmpeg = .error e) :
    (handler env g job fs0).res =
      .ok [("error", RVal.s ("Failed to save audio: " ++ e))] ∧
    OUTPUT_DIR ++ "/" ++ job.id.getD env.freshId ++ "_temp.wav" ∈
      (handler env g job fs0).fs := by
  obtain ⟨t, ht, ht0⟩ := h.textOk
  obtain ⟨exq, hex⟩ := h.exaggOk
  obtain ⟨cwq, hcw⟩ := h.cfgOk
  unfold handler
  simp only [h.model, ht, ht0, hex, hcw, hfmt, ne_eq, reduceIte]
  simp only [decide_True, Bool.or_true, reduceIte]
  unfold handlerMain
  cases hap : job.input.audio_prompt with
  | none =>
    dsimp only
    obtain ⟨hres, hfs, htmp⟩ := afterPrompt_ffmpeg_fail env g (job.id.getD env.freshId) t
      exq cwq (job.input.return_base64.getD (.pbool false)) none none fs0 [] e
      h.genOk hsv hff
    constructor
    · rw [finallyCleanup_res, hres]
    · unfold finallyCleanup
      rw [htmp]
      dsimp only
      rw [hfs]
      exact mem_fsWrite.mpr (Or.inl rfl)
  | some pv =>
    have hp0 := h.promptOk
    rw [hap] at hp0
    dsimp only at hp0
    obtain ⟨v, hv, hcase⟩ := hp0
    dsimp only
    rw [hv]
    dsimp only
    by_cases hsw : (strStartsWith v "http://" || strStartsWith v "https://") = true
    · rw [if_pos hsw] at hcase ⊢
      unfold download_audio
      rw [if_pos hsw, hcase]
      dsimp only
      obtain ⟨hres, hfs, htmp⟩ := afterPrompt_ffmpeg_fail env g (job.id.getD env.freshId) t
        exq cwq (job.input.return_base64.getD (.pbool false))
        (some (INPUT_DIR ++ "/" ++ job.id.getD env.freshId ++ "_prompt.wav"))
        (some (INPUT_DIR ++ "/" ++ job.id.getD env.freshId ++ "_prompt.wav"))
        (fsWrite fs0 (INPUT_DIR ++ "/" ++ job.id.getD env.freshId ++ "_prompt.wav"))
        [.fetch v, .tempWrite (INPUT_DIR ++ "/" ++ job.id.getD env.freshId ++ "_prompt.wav")]
        e h.genOk hsv hff
      constructor
      · rw [finallyCleanup_res, hres]
      · unfold finallyCleanup
        rw [htmp]
        dsimp only
        rw [hfs]
        have hmem : OUTPUT_DIR ++ "/" ++ job.id.getD env.freshId ++ "_temp.wav" ∈
            fsWrite (fsWrite fs0 (INPUT_DIR ++ "/" ++ job.id.getD env.freshId ++ "_prompt.wav"))
              (OUTPUT_DIR ++ "/" ++ job.id.getD env.freshId ++ "_temp.wav") :=
          mem_fsWrite.mpr (Or.inl rfl)
        split
        · exact mem_fsRemove.mpr ⟨hmem, prompt_temp_ne (job.id.getD env.freshId)⟩
        · exact hmem
    · rw [if_neg hsw] at hcase ⊢
      rw [hcase]
      dsimp only
      obtain ⟨hres, hfs, htmp⟩ := afterPrompt_ffmpeg_fail env g (job.id.getD env.freshId) t
        exq cwq (job.input.return_base64.getD (.pbool false))
        (some (INPUT_DIR ++ "/" ++ job.id.getD env.freshId ++ "_prompt.wav"))
        (some (INPUT_DIR ++ "/" ++ job.id.getD env.freshId ++ "_prompt.wav"))
        (fsWrite fs0 (INPUT_DIR ++ "/" ++ job.id.getD env.freshId ++ "_prompt.wav"))
        [.decodeB64 v, .tempWrite (INPUT_DIR ++ "/" ++ job.id.getD env.freshId ++ "_prompt.wav")]
        e h.genOk hsv hff
      constructor
      · rw [finallyCleanup_res, hres]
      · unfold finallyCleanup
        rw [htmp]
        dsimp only
        rw [hfs]
        have hmem : OUTPUT_DIR ++ "/" ++ job.id.getD env.freshId ++ "_temp.wav" ∈
            fsWrite (fsWrite fs0 (INPUT_DIR ++ "/" ++ job.id.getD env.freshId ++ "_prompt.wav"))
              (OUTPUT_DIR ++ "/" ++ job.id.getD env.freshId ++ "_temp.wav") :=
          mem_fsWrite.mpr (Or.inl rfl)
        split
        · exact mem_fsRemove.mpr ⟨hmem, prompt_temp_ne (job.id.getD env.freshId)⟩
        · exact hmem

theorem c10_mp3_intermediate_retained_witness :
    (handler envFf ⟨true, 24000⟩
        ⟨some "j10", ⟨some (.str "hi"), some (.str "QUJD"), none, none,
          some (.str "mp3"), none⟩⟩ []).res =
      .ok [("error", RVal.s ("Failed to save audio: " ++ "ffmpeg exited 1"))] ∧
    OUTPUT_DIR ++ "/" ++ (some "j10" : Option String).getD envFf.freshId ++ "_temp.wav" ∈
      (handler envFf ⟨true, 24000⟩
        ⟨some "j10", ⟨some (.str "hi"), some (.str "QUJD"), none, none,
          some (.str "mp3"), none⟩⟩ []).fs :=
  c10_mp3_intermediate_retained envFf ⟨true, 24000⟩
    ⟨some "j10", ⟨some (.str "hi"), some (.str "QUJD"), none, none, some (.str "mp3"),
      none⟩⟩ []
    ⟨rfl, ⟨"hi", by decide, by decide⟩, ⟨1 / 2, rfl⟩, ⟨1 / 2, rfl⟩,
     ⟨"mp3", by decide⟩, ⟨"QUJD", by decide, by decide⟩, fun t p a b => ⟨12000, rfl⟩⟩
    (fun p => rfl) (by decide) "ffmpeg exited 1" rfl
